import Mathlib

/-!
Shallow embedding of the Net Protocol upvote bot (the event-watch-to-action
reconciliation loop of the watcher script) and proofs of the specified
properties.

The embedding covers:
* the per-log-entry handler body of `watchUpvotes`'s `onLogs` callback
  (idempotency check, token/amount filter, inventory check, dispatch,
  logging, last-processed-block tracking);
* the state-persistence block of `tick` (the heartbeat loop) and the
  startup state load;
* `getConfig` (the remote-config cache with its stale/default fallback);
* `addUpvotesToDispenser` (the action dispatcher with its local catch).

Network effects (the config fetch, the gas-price read, the contract
simulation and submission, and the per-event inventory snapshot) are
passed in as explicit oracle arguments, so every path of the JavaScript
source becomes a branch of a total Lean function.
-/

namespace UpvoteBot

/-- Cache freshness window `CACHE_TTL_MS = 60 * 1000`: configs are cached for 60 s. -/
def CACHE_TTL_MS : Nat := 60 * 1000

/-- One delivered `Upvoted` log entry, as destructured by the `onLogs`
callback: `log.transactionHash`, `log.logIndex`, `log.args.user`,
`log.args.token` (possibly absent, hence `Option`), `log.args.numUpvotes`,
and `log.blockNumber` (possibly absent on pending logs). -/
structure EvLog where
  transactionHash : String
  logIndex : Nat
  user : String
  token : Option String
  numUpvotes : Nat
  blockNumber : Option Nat
deriving DecidableEq, Repr

/-- Run-fixed configuration of the watcher:
`global.NORMALIZED_TRACKED_TOKEN_ADDRESS` and `REQUIRED_UPVOTES`. -/
structure BotConfig where
  trackedTokenAddress : String
  requiredUpvotes : Nat
deriving DecidableEq, Repr

/-- Records appended to the daily JSONL file by `logInfo` / `logWarning` /
`logError`, restricted to the record kinds the watcher loop, the config
cache and the dispatcher emit.  Each constructor carries the data fields
the corresponding call site passes. -/
inductive LogEntry where
  | upvoteEventSeen (user token : String) (numUpvotes : Nat)
      (txHash : String) (blockNumber : Option Nat)
  | dispenserDepleted (user txHash : String) (blockNumber : Option Nat)
  | awardSuccess (user : String) (amount : Nat) (sourceTx dispenserTx : String)
  | awardFailed (user : String) (amount : Nat) (sourceTx : String)
  | configUpdated (upvotesRequired : String) (queuedNFTCount : Nat)
      (queuedNFTs : List String)
  | configFetchError (msg : String)
  | dispenserCall (hash user : String) (amount : Nat)
  | dispenserCallError (msg user : String) (amount : Nat)
deriving DecidableEq, Repr

/-- Records appended to `logs/dispenser-actions.jsonl` by
`logDispenserAction`, restricted to the actions this loop emits. -/
inductive DispenserAction where
  | configUpdatedAction (upvotesRequired : String) (queuedNFTCount : Nat)
      (queuedNFTs : List String)
  | inventoryDepleted (user sourceTx : String)
  | nftAwarded (user : String) (amount : Nat) (sourceTx dispenserTx : String)
      (inventoryBefore : Nat)
  | awardFailedAction (user : String) (amount : Nat) (sourceTx : String)
deriving DecidableEq, Repr

/-- The module-level mutable state touched by the `onLogs` callback:
`processedLogIds` (a JS `Set`, modelled as its insertion-ordered list of
distinct keys; membership = list membership), `lastProcessedBlock`, and
the two durable logs. -/
structure BotState where
  processedLogIds : List String
  lastProcessedBlock : Nat
  botLog : List LogEntry
  dispenserLog : List DispenserAction
deriving DecidableEq, Repr

/-- Ordered trace of the two externally visible actions of one handler
pass, used to state in which order they happen. -/
inductive Action where
  | markProcessed (id : String)
  | dispatchCall (user : String) (amount : Nat)
deriving DecidableEq, Repr

/-- The idempotency key: `` `${log.transactionHash}:${log.logIndex}` ``. -/
def eventId (log : EvLog) : String :=
  log.transactionHash ++ ":" ++ toString log.logIndex

/-- JavaScript `.toLowerCase()` (on the ASCII hex addresses involved):
lowercase every character.  Same function as core `String.toLower`, but
written with a structural `List.map` so that concrete instances can be
evaluated inside proofs. -/
def toLowerStr (s : String) : String :=
  ⟨s.data.map Char.toLower⟩

/-- Computes `(log.args.token || '').toLowerCase()`. -/
def eventTokenLower (log : EvLog) : String :=
  toLowerStr (log.token.getD "")

/-- One iteration of `for (const log of logs)` in `watchUpvotes`'s
`onLogs` callback (the per-entry handler body).

Oracles: `inv` is the `queuedNFTCount` obtained from `getConfig()` for
this entry (`!queuedNFTCount || queuedNFTCount === 0` collapses to
`inv = 0` on `Nat`); `award` is the result of
`addUpvotesToDispenser(user, REQUIRED_UPVOTES)` (`some hash` on success,
`none` on the soft failure).  Returns the updated state and the ordered
trace of mark/dispatch actions. -/
def onUpvoteLog (cfg : BotConfig) (inv : Nat) (award : Option String)
    (st : BotState) (log : EvLog) : BotState × List Action :=
  let id := eventId log
  if eventId log ∈ st.processedLogIds then (st, [])
  else
    let user := log.user
    let token := eventTokenLower log
    let numUpvotes := log.numUpvotes
    -- Only tracked token and exactly required upvotes in a single tx
    if token ≠ toLowerStr cfg.trackedTokenAddress then (st, [])
    else if numUpvotes ≠ cfg.requiredUpvotes then (st, [])
    else
      -- Mark processed preemptively to avoid re-entry
      let st1 : BotState :=
        { st with processedLogIds := st.processedLogIds ++ [id] }
      let st2 : BotState :=
        { st1 with botLog := st1.botLog ++
            [LogEntry.upvoteEventSeen user token numUpvotes
              log.transactionHash log.blockNumber] }
      if inv = 0 then
        -- depleted branch: log and `continue` (skips the block update)
        let st3 : BotState :=
          { st2 with
            botLog := st2.botLog ++
              [LogEntry.dispenserDepleted user log.transactionHash
                log.blockNumber],
            dispenserLog := st2.dispenserLog ++
              [DispenserAction.inventoryDepleted user log.transactionHash] }
        (st3, [Action.markProcessed id])
      else
        let st3 : BotState :=
          match award with
          | some awardHash =>
            { st2 with
              botLog := st2.botLog ++
                [LogEntry.awardSuccess user cfg.requiredUpvotes
                  log.transactionHash awardHash],
              dispenserLog := st2.dispenserLog ++
                [DispenserAction.nftAwarded user cfg.requiredUpvotes
                  log.transactionHash awardHash inv] }
          | none =>
            { st2 with
              botLog := st2.botLog ++
                [LogEntry.awardFailed user cfg.requiredUpvotes
                  log.transactionHash],
              dispenserLog := st2.dispenserLog ++
                [DispenserAction.awardFailedAction user cfg.requiredUpvotes
                  log.transactionHash] }
        -- Track last processed block
        let st4 : BotState :=
          match log.blockNumber with
          | some b =>
            if st3.lastProcessedBlock < b then
              { st3 with lastProcessedBlock := b }
            else st3
          | none => st3
        (st4, [Action.markProcessed id, Action.dispatchCall user cfg.requiredUpvotes])

/-- The whole `for (const log of logs)` loop over one delivered batch:
entries are handled strictly sequentially.  The oracles may answer
differently per entry. -/
def onUpvoteLogs (cfg : BotConfig) (inv : EvLog → Nat)
    (award : EvLog → Option String) (st : BotState) (logs : List EvLog) :
    BotState :=
  logs.foldl (fun s log => (onUpvoteLog cfg (inv log) (award log) s log).1) st

/-! ### Heartbeat persistence (`tick`) and startup state load -/

/-- The JSON object written to `net_state.json` each heartbeat tick.
`lastProcessed`, `tip` and `lastProcessedBlock` are serialised with
`.toString()`; we keep them as `Nat` since serialisation is injective on
decimal numerals. -/
structure NetState where
  lastProcessed : Nat
  tip : Nat
  lastProcessedBlock : Nat
  processed : List String
deriving DecidableEq, Repr

/-- The state-persistence block of `tick`:
`Array.from(processedLogIds)` yields the insertion-ordered list and
`processed.slice(Math.max(0, processed.length - 500))` is
`List.drop (length - 500)` (truncated `Nat` subtraction supplies the
`Math.max(0, ·)`). -/
def tickPersist (st : BotState) (currentTip : Nat) : NetState :=
  { lastProcessed := currentTip
    tip := currentTip
    lastProcessedBlock := st.lastProcessedBlock
    processed := st.processedLogIds.drop (st.processedLogIds.length - 500) }

/-- The module-top-level state load: reading `net_state.json` either fails
(`none`: "No state file found, starting from 0") or parses to a
`NetState`.  `new Set(state.processed)` has the same membership test as
the array itself; `state.lastProcessedBlock` is a tick-written non-empty
decimal string, hence truthy, so the height is always restored when the
file parses.  Returns `(processedLogIds, lastProcessedBlock)`. -/
def loadState (file : Option NetState) : List String × Nat :=
  match file with
  | none => ([], 0)
  | some s => (s.processed, s.lastProcessedBlock)

/-! ### Remote config cache (`getConfig`) -/

/-- The `config` object `getConfig` builds and caches
(`upvotesRequired` is stored via `.toString()`). -/
structure ConfigData where
  upvotesRequired : String
  queuedNFTCount : Nat
  queuedNFTs : List String
  lastUpdated : Nat
deriving DecidableEq, Repr

/-- The hardcoded default snapshot `getConfig` returns when the fetch
fails and no cached data exists. -/
def defaultConfig : ConfigData :=
  { upvotesRequired := "200"
    queuedNFTCount := 0
    queuedNFTs := []
    lastUpdated := 0 }

/-- Freshness test of the cache.  `configCache` starts as `{}` and is only ever assigned
`{timestamp, data}` as a pair, so it is `Option (Nat × ConfigData)`.
`configCache.timestamp && now - configCache.timestamp < CACHE_TTL_MS`:
a JS timestamp of `0` is falsy, and on `Nat` the truncated `now - t`
agrees with the JS signed difference on the `< CACHE_TTL_MS` test
(a negative JS difference and a truncated-to-`0` difference are both
below the positive TTL). -/
def configFresh (cache : Option (Nat × ConfigData)) (now : Nat) : Bool :=
  match cache with
  | some (t, _) => t ≠ 0 && now - t < CACHE_TTL_MS
  | none => false

/-- The fetch-and-fallback part of `getConfig` (the `try`/`catch` after a
cache miss).  `fetch` is the oracle for the parallel
`upvotesRequired()` / `getQueuedNFTs()` contract reads: `.ok (uv, nfts)`
on success, `.error msg` when the read throws with message `msg`.
Returns (returned snapshot, new cache, daily-log records, dispenser-log
records). -/
def getConfigFetch (cache : Option (Nat × ConfigData)) (now : Nat)
    (fetch : Except String (Nat × List Nat)) :
    ConfigData × Option (Nat × ConfigData) × List LogEntry × List DispenserAction :=
  match fetch with
  | .ok (upvotesRequired, queuedNFTs) =>
    let config : ConfigData :=
      { upvotesRequired := toString upvotesRequired
        queuedNFTCount := queuedNFTs.length
        queuedNFTs := queuedNFTs.map toString
        lastUpdated := now }
    (config, some (now, config),
      [LogEntry.configUpdated (toString upvotesRequired) queuedNFTs.length
        (queuedNFTs.map toString)],
      [DispenserAction.configUpdatedAction (toString upvotesRequired)
        queuedNFTs.length (queuedNFTs.map toString)])
  | .error msg =>
    match cache with
    | some (t, d) => (d, some (t, d), [LogEntry.configFetchError msg], [])
    | none => (defaultConfig, none, [LogEntry.configFetchError msg], [])

/-- Function `getConfig`: return the cached snapshot while fresh, otherwise fetch
with fallback (`getConfigFetch`).  Total: every failure path returns a
snapshot, never throws. -/
def getConfig (cache : Option (Nat × ConfigData)) (now : Nat)
    (fetch : Except String (Nat × List Nat)) :
    ConfigData × Option (Nat × ConfigData) × List LogEntry × List DispenserAction :=
  if configFresh cache now then
    match cache with
    | some (_, d) => (d, cache, [], [])
    | none => getConfigFetch cache now fetch
  else getConfigFetch cache now fetch

/-! ### Action dispatcher (`addUpvotesToDispenser`) -/

/-- The opaque `request` object `simulateContract` returns and
`writeContract` consumes; its contents are irrelevant to the dispatcher's
control flow, so it is an abstract token. -/
structure SimRequest where
  id : Nat
deriving DecidableEq, Repr

/-- The dispatcher `addUpvotesToDispenser(user, amount)`.  Oracles stand for the three
awaited network calls, each either succeeding or throwing with a message:
`gas` for `publicClient.getGasPrice()`, `simulate` for
`publicClient.simulateContract({...})` at the adjusted gas price, and
`write` for `walletClient.writeContract(request)`.  The surrounding
`try`/`catch` turns every throw into a logged error and a `none` return
(`return null`); on success the submitted transaction hash is returned
and a `dispenser_call` record logged. -/
def addUpvotesToDispenser (gas : Except String Nat)
    (simulate : Nat → Except String SimRequest)
    (write : SimRequest → Except String String)
    (user : String) (amount : Nat) : Option String × List LogEntry :=
  match gas with
  | .error e => (none, [LogEntry.dispenserCallError e user amount])
  | .ok gasPrice =>
    let adjustedGasPrice := gasPrice * 120 / 100
    match simulate adjustedGasPrice with
    | .error e => (none, [LogEntry.dispenserCallError e user amount])
    | .ok request =>
      match write request with
      | .error e => (none, [LogEntry.dispenserCallError e user amount])
      | .ok hash => (some hash, [LogEntry.dispenserCall hash user amount])

/-! ### Concrete instances used by the witnesses -/

/-- Concrete configuration used by the witnesses: a checksum-cased tracked
token address and the default `REQUIRED_UPVOTES = 420`. -/
def wCfg : BotConfig :=
  { trackedTokenAddress := "0xAbCd", requiredUpvotes := 420 }

/-- Concrete empty starting state used by the witnesses. -/
def wSt : BotState :=
  { processedLogIds := [], lastProcessedBlock := 3, botLog := [],
    dispenserLog := [] }

/-- A matching concrete log entry (lowercase token spelling, amount 420). -/
def wLog : EvLog :=
  { transactionHash := "0xt1", logIndex := 2, user := "0xu1",
    token := some "0xabcd", numUpvotes := 420, blockNumber := some 7 }

/-! ### Theorems -/

/-- Claim C2: for every delivered log entry whose idempotency key is already
in `processedLogIds`, the handler does nothing at all: the state is
returned unchanged (no dispatch, no set insertion, no log record of any
kind) and the action trace is empty — the `continue` on the `has(id)`
check fires before any other statement. -/
theorem onUpvoteLog_skips_processed (cfg : BotConfig) (inv : Nat)
    (award : Option String) (st : BotState) (log : EvLog)
    (h : eventId log ∈ st.processedLogIds) :
    onUpvoteLog cfg inv award st log = (st, []) := by
  simp [onUpvoteLog, h]

/-- Witness for C2 at a concrete already-processed entry. -/
theorem onUpvoteLog_skips_processed_witness :
    eventId wLog ∈ ["0xt1:2"] ∧
      onUpvoteLog wCfg 5 none
        { processedLogIds := ["0xt1:2"], lastProcessedBlock := 3,
          botLog := [], dispenserLog := [] } wLog =
      ({ processedLogIds := ["0xt1:2"], lastProcessedBlock := 3,
          botLog := [], dispenserLog := [] }, []) :=
  ⟨by decide,
    onUpvoteLog_skips_processed wCfg 5 none _ wLog (by decide)⟩

/-- Claim C3: a log entry whose lowercased token differs from the lowercased
tracked-token address, or whose amount is not exactly
`REQUIRED_UPVOTES`, is dropped: the handler returns the state unchanged
(no dispatch, key not marked, no log record) and an empty action trace. -/
theorem onUpvoteLog_drops_mismatch (cfg : BotConfig) (inv : Nat)
    (award : Option String) (st : BotState) (log : EvLog)
    (h : eventTokenLower log ≠ toLowerStr cfg.trackedTokenAddress ∨
      log.numUpvotes ≠ cfg.requiredUpvotes) :
    onUpvoteLog cfg inv award st log = (st, []) := by
  by_cases hmem : eventId log ∈ st.processedLogIds
  · simp [onUpvoteLog, hmem]
  · rcases h with h | h <;> simp [onUpvoteLog, hmem, h]

/-- Witness for C3: a concrete entry with amount 419 is dropped. -/
theorem onUpvoteLog_drops_mismatch_witness :
    (eventTokenLower { wLog with numUpvotes := 419 } ≠
        toLowerStr wCfg.trackedTokenAddress ∨
      ({ wLog with numUpvotes := 419 } : EvLog).numUpvotes ≠
        wCfg.requiredUpvotes) ∧
      onUpvoteLog wCfg 5 none wSt { wLog with numUpvotes := 419 } =
        (wSt, []) :=
  ⟨Or.inr (by decide),
    onUpvoteLog_drops_mismatch wCfg 5 none wSt _ (Or.inr (by decide))⟩

/-- Claim C1: for every entry that passes the idempotency check and both
filters, the mark of the key `` `${txHash}:${logIndex}` `` is the first
action of the handler's trace — strictly before any `dispatchCall` —,
the key is in `processedLogIds` afterwards, and a duplicate delivery of
the same key against any state in which the key is already marked
performs no dispatch and no change at all. -/
theorem onUpvoteLog_marks_before_dispatch (cfg : BotConfig) (inv : Nat)
    (award : Option String) (st : BotState) (log : EvLog)
    (hmem : eventId log ∉ st.processedLogIds)
    (htok : eventTokenLower log = toLowerStr cfg.trackedTokenAddress)
    (hamt : log.numUpvotes = cfg.requiredUpvotes) :
    (∃ rest, (onUpvoteLog cfg inv award st log).2 =
        Action.markProcessed (eventId log) :: rest) ∧
      eventId log ∈ (onUpvoteLog cfg inv award st log).1.processedLogIds ∧
      ∀ st₂ log₂ inv₂ award₂, eventId log₂ = eventId log →
        eventId log ∈ st₂.processedLogIds →
        onUpvoteLog cfg inv₂ award₂ st₂ log₂ = (st₂, []) := by
  refine ⟨?_, ?_, ?_⟩
  · by_cases hinv : inv = 0 <;>
      simp [onUpvoteLog, hmem, htok, hamt, hinv]
  · by_cases hinv : inv = 0
    · simp [onUpvoteLog, hmem, htok, hamt, hinv]
    · cases award <;> rcases hb : log.blockNumber with _ | b <;>
        simp [onUpvoteLog, hmem, htok, hamt, hinv, hb] <;> split <;> simp
  · intro st₂ log₂ inv₂ award₂ hid hmem₂
    have : eventId log₂ ∈ st₂.processedLogIds := hid ▸ hmem₂
    simp [onUpvoteLog, this]

/-- Witness for C1 at the concrete matching entry `wLog`. -/
theorem onUpvoteLog_marks_before_dispatch_witness :
    (eventId wLog ∉ wSt.processedLogIds ∧
        eventTokenLower wLog = toLowerStr wCfg.trackedTokenAddress ∧
        wLog.numUpvotes = wCfg.requiredUpvotes) ∧
      ((∃ rest, (onUpvoteLog wCfg 5 (some "0xa") wSt wLog).2 =
          Action.markProcessed (eventId wLog) :: rest) ∧
        eventId wLog ∈
          (onUpvoteLog wCfg 5 (some "0xa") wSt wLog).1.processedLogIds ∧
        ∀ st₂ log₂ inv₂ award₂, eventId log₂ = eventId wLog →
          eventId wLog ∈ st₂.processedLogIds →
          onUpvoteLog wCfg inv₂ award₂ st₂ log₂ = (st₂, [])) :=
  ⟨⟨by decide, by decide, by decide⟩,
    onUpvoteLog_marks_before_dispatch wCfg 5 (some "0xa") wSt wLog
      (by decide) (by decide) (by decide)⟩

/-- Claim C4: a matched entry seen with inventory count `0` takes the
depleted branch: the handler logs `upvote_event_seen` then the
`dispenser_depleted` warning (user, source tx, block) to the daily log
and an `inventory_depleted` record (user, source tx) to the dispenser
log, performs no dispatch (the trace is just the mark), and changes no
other state — in particular `lastProcessedBlock` is untouched, since the
branch `continue`s before the block-tracking statement. -/
theorem onUpvoteLog_depleted (cfg : BotConfig) (award : Option String)
    (st : BotState) (log : EvLog)
    (hmem : eventId log ∉ st.processedLogIds)
    (htok : eventTokenLower log = toLowerStr cfg.trackedTokenAddress)
    (hamt : log.numUpvotes = cfg.requiredUpvotes) :
    onUpvoteLog cfg 0 award st log =
      ({ st with
          processedLogIds := st.processedLogIds ++ [eventId log],
          botLog := st.botLog ++
            [LogEntry.upvoteEventSeen log.user (eventTokenLower log)
                log.numUpvotes log.transactionHash log.blockNumber,
              LogEntry.dispenserDepleted log.user log.transactionHash
                log.blockNumber],
          dispenserLog := st.dispenserLog ++
            [DispenserAction.inventoryDepleted log.user
                log.transactionHash] },
        [Action.markProcessed (eventId log)]) := by
  simp [onUpvoteLog, hmem, htok, hamt]

/-- Witness for C4 at the concrete matching entry `wLog`. -/
theorem onUpvoteLog_depleted_witness :
    (eventId wLog ∉ wSt.processedLogIds ∧
        eventTokenLower wLog = toLowerStr wCfg.trackedTokenAddress ∧
        wLog.numUpvotes = wCfg.requiredUpvotes) ∧
      onUpvoteLog wCfg 0 none wSt wLog =
        ({ wSt with
            processedLogIds := wSt.processedLogIds ++ [eventId wLog],
            botLog := wSt.botLog ++
              [LogEntry.upvoteEventSeen wLog.user (eventTokenLower wLog)
                  wLog.numUpvotes wLog.transactionHash wLog.blockNumber,
                LogEntry.dispenserDepleted wLog.user wLog.transactionHash
                  wLog.blockNumber],
            dispenserLog := wSt.dispenserLog ++
              [DispenserAction.inventoryDepleted wLog.user
                  wLog.transactionHash] },
          [Action.markProcessed (eventId wLog)]) :=
  ⟨⟨by decide, by decide, by decide⟩,
    onUpvoteLog_depleted wCfg none wSt wLog (by decide) (by decide)
      (by decide)⟩

/-- Claim C5: a matched entry whose dispatch returns no transaction hash
(`addUpvotesToDispenser` soft failure) results in an `award_failed`
record (user, amount, source tx) in both the daily log and the dispenser
log, the idempotency key stays in `processedLogIds`, and the trace holds
exactly one `dispatchCall` — no retry is attempted. -/
theorem onUpvoteLog_award_failed (cfg : BotConfig) (inv : Nat)
    (st : BotState) (log : EvLog)
    (hmem : eventId log ∉ st.processedLogIds)
    (htok : eventTokenLower log = toLowerStr cfg.trackedTokenAddress)
    (hamt : log.numUpvotes = cfg.requiredUpvotes)
    (hinv : inv ≠ 0) :
    (onUpvoteLog cfg inv none st log).1.processedLogIds =
        st.processedLogIds ++ [eventId log] ∧
      (onUpvoteLog cfg inv none st log).1.botLog = st.botLog ++
        [LogEntry.upvoteEventSeen log.user (eventTokenLower log)
            log.numUpvotes log.transactionHash log.blockNumber,
          LogEntry.awardFailed log.user cfg.requiredUpvotes
            log.transactionHash] ∧
      (onUpvoteLog cfg inv none st log).1.dispenserLog = st.dispenserLog ++
        [DispenserAction.awardFailedAction log.user cfg.requiredUpvotes
            log.transactionHash] ∧
      (onUpvoteLog cfg inv none st log).2 =
        [Action.markProcessed (eventId log),
          Action.dispatchCall log.user cfg.requiredUpvotes] := by
  rcases hb : log.blockNumber with _ | b <;>
    refine ⟨?_, ?_, ?_, ?_⟩ <;>
      simp [onUpvoteLog, hmem, htok, hamt, hinv, hb] <;> split <;> simp

/-- Witness for C5 at the concrete matching entry `wLog` with a failed
dispatch. -/
theorem onUpvoteLog_award_failed_witness :
    (eventId wLog ∉ wSt.processedLogIds ∧
        eventTokenLower wLog = toLowerStr wCfg.trackedTokenAddress ∧
        wLog.numUpvotes = wCfg.requiredUpvotes ∧ (5 : Nat) ≠ 0) ∧
      ((onUpvoteLog wCfg 5 none wSt wLog).1.processedLogIds =
          wSt.processedLogIds ++ [eventId wLog] ∧
        (onUpvoteLog wCfg 5 none wSt wLog).1.botLog = wSt.botLog ++
          [LogEntry.upvoteEventSeen wLog.user (eventTokenLower wLog)
              wLog.numUpvotes wLog.transactionHash wLog.blockNumber,
            LogEntry.awardFailed wLog.user wCfg.requiredUpvotes
              wLog.transactionHash] ∧
        (onUpvoteLog wCfg 5 none wSt wLog).1.dispenserLog =
          wSt.dispenserLog ++
            [DispenserAction.awardFailedAction wLog.user
                wCfg.requiredUpvotes wLog.transactionHash] ∧
        (onUpvoteLog wCfg 5 none wSt wLog).2 =
          [Action.markProcessed (eventId wLog),
            Action.dispatchCall wLog.user wCfg.requiredUpvotes]) :=
  ⟨⟨by decide, by decide, by decide, by decide⟩,
    onUpvoteLog_award_failed wCfg 5 wSt wLog (by decide) (by decide)
      (by decide) (by decide)⟩

/-- A concrete in-memory processed set of 501 distinct keys, used to show
the effect of the 500-entry persistence cap. -/
def bigProcessed : List String :=
  (List.range 501).map (fun i => toString i)

/-- A state whose processed set holds 501 keys. -/
def bigState : BotState :=
  { processedLogIds := bigProcessed, lastProcessedBlock := 0,
    botLog := [], dispenserLog := [] }

set_option maxRecDepth 100000 in
/-- Counterexample to claim C6: with 501 keys in the in-memory set, the key
`"0"` (the oldest) is a member before persisting, but after the heartbeat
persists (truncating to the most recent 500) and a fresh startup reloads
the file, `"0"` is no longer a member: the round-trip membership test
does not agree on all previously-processed keys. -/
theorem tickPersist_roundtrip_cex :
    "0" ∈ bigState.processedLogIds ∧
      "0" ∉ (loadState (some (tickPersist bigState 0))).1 := by
  decide

/-- Claim C6 (amended): when the in-memory processed set holds at most 500
keys — so the heartbeat's 500-entry cap does not truncate — the state
persisted by `tick` and reloaded at a fresh startup yields a processed
set whose membership test agrees with the original on every key. -/
theorem tickPersist_roundtrip (st : BotState) (tip : Nat)
    (h : st.processedLogIds.length ≤ 500) :
    ∀ key, key ∈ (loadState (some (tickPersist st tip))).1 ↔
      key ∈ st.processedLogIds := by
  intro key
  simp [loadState, tickPersist, Nat.sub_eq_zero_of_le h]

/-- A small concrete state with two processed keys. -/
def wStP : BotState :=
  { processedLogIds := ["0xt1:2", "0xt9:0"], lastProcessedBlock := 11,
    botLog := [], dispenserLog := [] }

/-- Witness for the amended C6 at a concrete two-key state. -/
theorem tickPersist_roundtrip_witness :
    wStP.processedLogIds.length ≤ 500 ∧
      ("0xt1:2" ∈ (loadState (some (tickPersist wStP 9))).1 ↔
        "0xt1:2" ∈ wStP.processedLogIds) :=
  ⟨by decide, tickPersist_roundtrip wStP 9 (by decide) "0xt1:2"⟩

/-- Claim C7: on every heartbeat tick, the `processed` array written to the
state file has length `min (size) 500` — hence never more than 500 — and
is a suffix of the insertion-ordered in-memory set, i.e. exactly the most
recently inserted keys. -/
theorem tickPersist_cap (st : BotState) (tip : Nat) :
    (tickPersist st tip).processed.length =
        min st.processedLogIds.length 500 ∧
      List.IsSuffix (tickPersist st tip).processed st.processedLogIds := by
  constructor
  · simp only [tickPersist, List.length_drop]
    omega
  · simp only [tickPersist]
    exact List.drop_suffix _ _

/-- Claim C8: when the remote config read fails (`fetch = .error msg`) on a
cache miss, `getConfig` still returns a snapshot (it is a total
function — never throws): the cache is left unchanged, the fetch error is
logged, and the returned snapshot is the previously cached one when it
exists, else the hardcoded default (`upvotesRequired = "200"`, zero
inventory, no queued ids) so downstream logic sees "no inventory". -/
theorem getConfig_fetch_failure (cache : Option (Nat × ConfigData))
    (now : Nat) (msg : String) (h : configFresh cache now = false) :
    (getConfig cache now (.error msg)).2.1 = cache ∧
      LogEntry.configFetchError msg ∈
        (getConfig cache now (.error msg)).2.2.1 ∧
      ((∃ t d, cache = some (t, d) ∧
          (getConfig cache now (.error msg)).1 = d) ∨
        (cache = none ∧
          (getConfig cache now (.error msg)).1 = defaultConfig)) := by
  cases cache with
  | none => simp [getConfig, h, getConfigFetch]
  | some td =>
    obtain ⟨t, d⟩ := td
    exact ⟨by simp [getConfig, h, getConfigFetch],
      by simp [getConfig, h, getConfigFetch],
      Or.inl ⟨t, d, rfl, by simp [getConfig, h, getConfigFetch]⟩⟩

/-- Witness for C8: empty cache, failing fetch, default returned. -/
theorem getConfig_fetch_failure_witness :
    configFresh none 0 = false ∧
      ((getConfig none 0 (.error "boom")).2.1 = none ∧
        LogEntry.configFetchError "boom" ∈
          (getConfig none 0 (.error "boom")).2.2.1 ∧
        ((∃ t d, (none : Option (Nat × ConfigData)) = some (t, d) ∧
            (getConfig none 0 (.error "boom")).1 = d) ∨
          ((none : Option (Nat × ConfigData)) = none ∧
            (getConfig none 0 (.error "boom")).1 = defaultConfig))) :=
  ⟨by decide, getConfig_fetch_failure none 0 "boom" (by decide)⟩

/-- Claim C9: `addUpvotesToDispenser` never raises to its caller (it is a
total function of its oracles): either every network step succeeds and it
returns the submitted transaction hash together with a `dispenser_call`
record, or some step throws with message `e` and it returns `none` with a
`dispenser_call_error` record carrying that underlying message. -/
theorem addUpvotesToDispenser_soft_failure (gas : Except String Nat)
    (simulate : Nat → Except String SimRequest)
    (write : SimRequest → Except String String)
    (user : String) (amount : Nat) :
    (∃ gasPrice request hash,
        gas = .ok gasPrice ∧
        simulate (gasPrice * 120 / 100) = .ok request ∧
        write request = .ok hash ∧
        addUpvotesToDispenser gas simulate write user amount =
          (some hash, [LogEntry.dispenserCall hash user amount])) ∨
      (∃ e,
        addUpvotesToDispenser gas simulate write user amount =
          (none, [LogEntry.dispenserCallError e user amount]) ∧
        (gas = .error e ∨
          ∃ gasPrice, gas = .ok gasPrice ∧
            (simulate (gasPrice * 120 / 100) = .error e ∨
              ∃ request, simulate (gasPrice * 120 / 100) = .ok request ∧
                write request = .error e))) := by
  cases gas with
  | error e =>
    exact Or.inr ⟨e, by simp [addUpvotesToDispenser], Or.inl rfl⟩
  | ok gasPrice =>
    rcases hs : simulate (gasPrice * 120 / 100) with e | request
    · exact Or.inr ⟨e, by simp [addUpvotesToDispenser, hs],
        Or.inr ⟨gasPrice, rfl, Or.inl hs⟩⟩
    · rcases hw : write request with e | hash
      · exact Or.inr ⟨e, by simp [addUpvotesToDispenser, hs, hw],
          Or.inr ⟨gasPrice, rfl, Or.inr ⟨request, hs, hw⟩⟩⟩
      · exact Or.inl ⟨gasPrice, request, hash, rfl, hs, hw,
          by simp [addUpvotesToDispenser, hs, hw]⟩

/-- Helper: one handler pass never decreases `lastProcessedBlock`
(the only assignment guards with `> lastProcessedBlock`). -/
theorem lastProcessedBlock_le_onUpvoteLog (cfg : BotConfig) (inv : Nat)
    (award : Option String) (st : BotState) (log : EvLog) :
    st.lastProcessedBlock ≤
      (onUpvoteLog cfg inv award st log).1.lastProcessedBlock := by
  by_cases h1 : eventId log ∈ st.processedLogIds
  · simp [onUpvoteLog, h1]
  · by_cases h2 : eventTokenLower log = toLowerStr cfg.trackedTokenAddress
    · by_cases h3 : log.numUpvotes = cfg.requiredUpvotes
      · by_cases h4 : inv = 0
        · simp [onUpvoteLog, h1, h2, h3, h4]
        · cases award <;> rcases hb : log.blockNumber with _ | b <;>
            simp [onUpvoteLog, h1, h2, h3, h4, hb] <;> split <;>
              simp <;> omega
      · simp [onUpvoteLog, h1, h3]
    · simp [onUpvoteLog, h1, h2]

/-- Counterexample to claim C10: the concrete entry `wLog` is matched (not yet
processed, token and amount pass both filters) and carries block number
7, yet handling it with inventory 0 leaves `lastProcessedBlock` at 3
instead of `max 3 7 = 7`: the depleted branch `continue`s before the
block-tracking statement, so the claimed max-update does not hold for
every matched event. -/
theorem lastProcessedBlock_not_max_cex :
    (eventId wLog ∉ wSt.processedLogIds ∧
        eventTokenLower wLog = toLowerStr wCfg.trackedTokenAddress ∧
        wLog.numUpvotes = wCfg.requiredUpvotes ∧
        wLog.blockNumber = some 7 ∧
        wSt.lastProcessedBlock = 3) ∧
      (onUpvoteLog wCfg 0 none wSt wLog).1.lastProcessedBlock ≠
        max wSt.lastProcessedBlock 7 := by
  exact ⟨⟨by decide, by decide, by decide, rfl, rfl⟩, by decide⟩

/-- Claim C10 (amended): `lastProcessedBlock` is monotonically
non-decreasing: no handler pass (and hence no batch) ever decreases it;
and for a matched event that reaches the dispatch stage (inventory
nonzero) with a present block number `b`, the handler sets it to
`max` of its previous value and `b`.  (A matched event taking the
depleted branch leaves it unchanged, per the counterexample.) -/
theorem lastProcessedBlock_monotone (cfg : BotConfig) :
    (∀ inv award st log, st.lastProcessedBlock ≤
        (onUpvoteLog cfg inv award st log).1.lastProcessedBlock) ∧
      (∀ inv award st logs, st.lastProcessedBlock ≤
        (onUpvoteLogs cfg inv award st logs).lastProcessedBlock) ∧
      (∀ inv award st log b, eventId log ∉ st.processedLogIds →
        eventTokenLower log = toLowerStr cfg.trackedTokenAddress →
        log.numUpvotes = cfg.requiredUpvotes → inv ≠ 0 →
        log.blockNumber = some b →
        (onUpvoteLog cfg inv award st log).1.lastProcessedBlock =
          max st.lastProcessedBlock b) := by
  refine ⟨lastProcessedBlock_le_onUpvoteLog cfg, ?_, ?_⟩
  · intro inv award st logs
    induction logs generalizing st with
    | nil => simp [onUpvoteLogs]
    | cons l ls ih =>
      simp only [onUpvoteLogs, List.foldl_cons]
      exact le_trans (lastProcessedBlock_le_onUpvoteLog cfg (inv l)
        (award l) st l) (ih _)
  · intro inv award st log b hmem htok hamt hinv hb
    cases award <;>
      simp [onUpvoteLog, hmem, htok, hamt, hinv, hb] <;> split <;>
        simp <;> omega

/-- Witness for the amended C10 at the concrete matching entry `wLog`
with inventory 5 and block number 7. -/
theorem lastProcessedBlock_monotone_witness :
    (eventId wLog ∉ wSt.processedLogIds ∧
        eventTokenLower wLog = toLowerStr wCfg.trackedTokenAddress ∧
        wLog.numUpvotes = wCfg.requiredUpvotes ∧ (5 : Nat) ≠ 0 ∧
        wLog.blockNumber = some 7) ∧
      (onUpvoteLog wCfg 5 none wSt wLog).1.lastProcessedBlock =
        max wSt.lastProcessedBlock 7 :=
  ⟨⟨by decide, by decide, by decide, by decide, rfl⟩,
    (lastProcessedBlock_monotone wCfg).2.2 5 none wSt wLog 7 (by decide)
      (by decide) (by decide) (by decide) rfl⟩

end UpvoteBot
